import Mathlib

/-!
Verification of the firmware in `src/iot/creator/src/main.cpp`.

The program is a single-threaded Arduino sketch: `setup()` establishes the
wireless link (unbounded retry), strips the scheme from `DATABASE_URL` to
configure the store client, polls store readiness for at most 20 attempts at
1000 ms spacing, and initialises the display; `loop()` then, once per cycle,
reads the two analog channels, derives the metrics
(`carbonCredits = co2Reading * 0.5`, `emissions = humidityReading * 0.2`,
`offset = carbonCredits >= emissions`), renders the display, prints the serial
summary line, conditionally uploads a JSON record to the store, and sleeps
5000 ms.

Embedding conventions:
* C `int` readings become `Int`; `millis()` values become `Nat`.
* The `float` values and the literals `0.5` / `0.2` are modelled with exact
  rational arithmetic (`ℚ`, constants `1/2` and `1/5`); within the 12-bit ADC
  range the float computation is exact at the granularity the claims use.
* Each external call made by a cycle (display, serial, store write, sleep) is
  recorded as one `Event`; a cycle is a pure function from its environment
  (the values the external world returns to it during that cycle) to the list
  of events it performs, in program order.
* The two separate `millis()` calls in `loop()` (one for the path, one for the
  `timestamp` field) are modelled as two environment values `millis1` and
  `millis2`, since nothing in the code forces the clock not to tick between
  them.
* External boolean status calls (`WiFi.status() != WL_CONNECTED`,
  `Firebase.ready()`) are modelled as a stream `Nat → Bool` indexed by call
  number.
-/

/-- The key/value record assembled by the `FirebaseJson` object in `loop()`
(`json.set("co2", ...)` … `json.set("timestamp", millis())`),
`src/iot/creator/src/main.cpp` lines 127–133. -/
structure Record where
  co2 : Int
  humidity : Int
  credits : ℚ
  emissions : ℚ
  offset : Bool
  timestamp : Nat
deriving DecidableEq

/-- The metric derivation of `loop()` lines 96–102:
`carbonCredits = co2Reading * 0.5; emissions = humidityReading * 0.2;
offset = (carbonCredits >= emissions);` with the float constants `0.5` and
`0.2` modelled as the exact rationals `1/2` and `1/5`. -/
def derive (co2Reading humidityReading : Int) : ℚ × ℚ × Bool :=
  let carbonCredits : ℚ := (co2Reading : ℚ) * (1 / 2)
  let emissions : ℚ := (humidityReading : ℚ) * (1 / 5)
  (carbonCredits, emissions, decide (carbonCredits ≥ emissions))

/-- One observable action of the firmware: each constructor records one call
the code makes to an external collaborator, carrying exactly the data the
code passes to that call. -/
inductive Event where
  /-- The two `analogRead` calls at the top of `loop()`. -/
  | sensorRead (co2 humidity : Int)
  /-- The OLED update of `loop()` lines 104–117: it shows the readings,
  the credits value and the offset flag (there is no emissions line). -/
  | displayRender (co2 humidity : Int) (credits : ℚ) (offset : Bool)
  /-- The per-cycle `Serial.printf("CO2:%d Hum:%d Credits:%.1f Offset:%s\n", ...)`
  diagnostic; it receives the readings, the credits value and the offset flag. -/
  | cycleLine (co2 humidity : Int) (credits : ℚ) (offset : Bool)
  /-- A call to `Firebase.setJSON(fbdo, path, json)`. -/
  | fbSetJSON (path : String) (rec : Record)
  /-- `Serial.println("  ✅ Uploaded to Firebase")`. -/
  | uploadOk
  /-- `Serial.print("  ❌ Upload failed: "); Serial.println(fbdo.errorReason())`. -/
  | uploadFailed (reason : String)
  /-- `Serial.println("  ⚠️ Firebase not ready")`. -/
  | notReady
  /-- `Serial.println("\n✅ Firebase Connected!")` in `setup()`. -/
  | fbConnected
  /-- `Serial.println("\n❌ Firebase Timeout!")` in `setup()`. -/
  | fbTimeout
  /-- A `delay(ms)` call. -/
  | sleep (ms : Nat)
deriving DecidableEq

/-- The values the external world supplies to one execution of `loop()`:
the two ADC readings, whether `Firebase.ready()` returns true at the upload
check, the values returned by the two `millis()` calls, whether
`Firebase.setJSON` succeeds, and the `fbdo.errorReason()` string. -/
structure CycleEnv where
  co2 : Int
  humidity : Int
  fbReady : Bool
  millis1 : Nat
  millis2 : Nat
  writeOk : Bool
  errorReason : String
deriving DecidableEq

/-- The event trace of one execution of `loop()`
(`src/iot/creator/src/main.cpp` lines 94–145), in program order:
read sensors; derive metrics; render the display; print the serial summary;
if `Firebase.ready()` then build the path from the first `millis()` sample,
build the record (whose `timestamp` field is the second `millis()` sample)
and call `Firebase.setJSON`, reporting success or failure; otherwise print
the not-ready line; finally `delay(5000)`. -/
def loop (env : CycleEnv) : List Event :=
  let c := env.co2
  let h := env.humidity
  let d := derive c h
  (Event.sensorRead c h ::
   Event.displayRender c h d.1 d.2.2 ::
   Event.cycleLine c h d.1 d.2.2 ::
   (if env.fbReady then
      Event.fbSetJSON ("/carbon_data/" ++ toString env.millis1)
        { co2 := c, humidity := h, credits := d.1, emissions := d.2.1,
          offset := d.2.2, timestamp := env.millis2 } ::
      (if env.writeOk then [Event.uploadOk] else [Event.uploadFailed env.errorReason])
    else [Event.notReady])) ++ [Event.sleep 5000]

/-- Steady-state execution: the concatenated traces of the first `n` cycles;
cycle `k` runs in environment `envs k`. -/
def run (envs : Nat → CycleEnv) : Nat → List Event
  | 0 => []
  | n + 1 => run envs n ++ loop (envs n)

/-- Recognises a store-write call among the events of a trace. -/
def isWrite : Event → Bool
  | Event.fbSetJSON _ _ => true
  | _ => false

/-- Recognises the events whose payload is computed purely from the cycle's
sensor readings (sensor read, display render, serial summary). -/
def isLocalOut : Event → Bool
  | Event.sensorRead _ _ => true
  | Event.displayRender _ _ _ _ => true
  | Event.cycleLine _ _ _ _ => true
  | _ => false

/-- Recognises the per-cycle serial summary event. -/
def isDiag : Event → Bool
  | Event.cycleLine _ _ _ _ => true
  | _ => false

/-- Recognises the display-render event. -/
def isRender : Event → Bool
  | Event.displayRender _ _ _ _ => true
  | _ => false

/-- A fixed environment used to exercise the theorems on concrete data:
readings 800 and 400, store ready, both `millis()` samples 1000, write
succeeding. -/
def envReadyOk : CycleEnv :=
  { co2 := 800, humidity := 400, fbReady := true, millis1 := 1000,
    millis2 := 1000, writeOk := true, errorReason := "" }

/-- Like `envReadyOk` but with the store not ready. -/
def envNotReady : CycleEnv :=
  { co2 := 800, humidity := 400, fbReady := false, millis1 := 1000,
    millis2 := 1000, writeOk := true, errorReason := "" }

/-- Like `envReadyOk` but with the write failing with reason `"timeout"`. -/
def envWriteFail : CycleEnv :=
  { co2 := 800, humidity := 400, fbReady := true, millis1 := 1000,
    millis2 := 1000, writeOk := false, errorReason := "timeout" }

/-- An environment in which the clock ticks between the two `millis()` calls
of the upload step: the path sample is 1000, the timestamp-field sample 1001. -/
def envClockTick : CycleEnv :=
  { co2 := 800, humidity := 400, fbReady := true, millis1 := 1000,
    millis2 := 1001, writeOk := true, errorReason := "" }

/-- An environment with readings 0 and 1000 (the spec's second end-to-end
scenario), store not ready. -/
def envZero : CycleEnv :=
  { co2 := 0, humidity := 1000, fbReady := false, millis1 := 0,
    millis2 := 0, writeOk := true, errorReason := "" }

/-- State of the WiFi wait loop of `setup()` lines 37–40: `waiting n` means
the loop is about to make status call number `n`; `connected n` means the
loop exited after status call `n` reported the link up. -/
inductive WifiState where
  | waiting (n : Nat)
  | connected (n : Nat)
deriving DecidableEq

/-- One iteration of `while (WiFi.status() != WL_CONNECTED) { delay(300); }`:
`status i` is true when status call number `i` reports `WL_CONNECTED`. -/
def wifiStep (status : Nat → Bool) : WifiState → WifiState
  | WifiState.waiting n =>
      if status n then WifiState.connected n else WifiState.waiting (n + 1)
  | WifiState.connected n => WifiState.connected n

/-- The WiFi wait loop after `n` iterations, starting from the first status
check. -/
def wifiRun (status : Nat → Bool) : Nat → WifiState
  | 0 => WifiState.waiting 0
  | n + 1 => wifiStep status (wifiRun status n)

/-- The Firebase readiness poll of `setup()` lines 63–67:
`while (!Firebase.ready() && timeout-- > 0) { delay(1000); }` with the
countdown starting at `t`. `ready i` is the result of `Firebase.ready()` call
number `i`. Returns the delay events performed and the index of the next
unused `ready` call (the loop consumes one final call when it exits). -/
def fbWait (ready : Nat → Bool) : Nat → Nat → List Event × Nat
  | i, 0 => ([], i + 1)
  | i, t + 1 =>
      if ready i then ([], i + 1)
      else
        let p := fbWait ready (i + 1) t
        (Event.sleep 1000 :: p.1, p.2)

/-- The Firebase phase of `setup()` lines 62–73: the poll loop with countdown
20, followed by the `if (Firebase.ready())` check that prints either the
connected or the timeout diagnostic exactly once. -/
def fbSetupTrace (ready : Nat → Bool) : List Event :=
  let p := fbWait ready 0 20
  p.1 ++ [if ready p.2 then Event.fbConnected else Event.fbTimeout]

/-- The whole modelled execution: the Firebase phase of `setup()` followed by
the first `n` iterations of `loop()`. -/
def deviceTrace (ready : Nat → Bool) (envs : Nat → CycleEnv) (n : Nat) :
    List Event :=
  fbSetupTrace ready ++ run envs n

/-- `containsSub pat s` is true when `pat` occurs as a contiguous substring
of `s` (leftmost scan, like C `strstr`). -/
def containsSub (pat : List Char) : List Char → Bool
  | [] => List.isPrefixOf pat []
  | c :: rest => List.isPrefixOf pat (c :: rest) || containsSub pat rest

/-- Arduino `String::replace(find, "")` for a non-empty pattern: a single
left-to-right pass that deletes each non-overlapping occurrence of `pat`,
resuming the scan after the deleted occurrence (the replacement text is never
rescanned), exactly as the `strstr`-based loop in `WString.cpp` does. -/
def replaceAll (pat : List Char) : List Char → List Char
  | [] => []
  | c :: rest =>
      if List.isPrefixOf pat (c :: rest) ∧ pat ≠ [] then
        replaceAll pat (rest.drop (pat.length - 1))
      else
        c :: replaceAll pat rest
termination_by s => s.length
decreasing_by
  · simp only [List.length_drop, List.length_cons]
    omega
  · simp

/-- The characters of `"https://"`. -/
def httpsChars : List Char := ['h', 't', 't', 'p', 's', ':', '/', '/']

/-- The characters of `"http://"`. -/
def httpChars : List Char := ['h', 't', 't', 'p', ':', '/', '/']

/-- The host computation of `setup()` lines 51–54:
`host.replace("https://", ""); host.replace("http://", "");
if (host.endsWith("/")) host.remove(host.length() - 1);` applied to the
characters of `DATABASE_URL`. -/
def hostOf (s : List Char) : List Char :=
  let s1 := replaceAll httpsChars s
  let s2 := replaceAll httpChars s1
  if s2.getLast? = some '/' then s2.dropLast else s2

/-- A configuration string is URL-like when it is one of the two scheme
prefixes followed by a remainder that contains no further occurrence of
either scheme (the ordinary shape `scheme://host/path…`). -/
def UrlLike (s : List Char) : Prop :=
  ∃ r, (s = httpsChars ++ r ∨ s = httpChars ++ r) ∧
    containsSub httpsChars r = false ∧ containsSub httpChars r = false

/-- The scheme prefix and one trailing `'/'` stripped from a URL-like string,
everything else unchanged: the reference result the spec describes. -/
def specStrippedHost (s : List Char) : List Char :=
  let r := if List.isPrefixOf httpsChars s then s.drop httpsChars.length
           else if List.isPrefixOf httpChars s then s.drop httpChars.length
           else s
  if r.getLast? = some '/' then r.dropLast else r

/-- Decimal rendering of a rational with one digit after the point, the shape
`printf("%.1f", …)` gives non-negative values (all values the cycle prints
from in-range readings are non-negative and exact at one decimal). -/
def fmt1 (q : ℚ) : String :=
  let t : Int := ⌊q * 10⌋
  toString (t / 10) ++ "." ++ toString (t % 10)

/-- The text of the per-cycle serial diagnostic, following the format string
`"CO2:%d Hum:%d Credits:%.1f Offset:%s"` of `loop()` lines 119–121. -/
def renderCycleLine (c h : Int) (credits : ℚ) (off : Bool) : String :=
  "CO2:" ++ toString c ++ " Hum:" ++ toString h ++ " Credits:" ++
    fmt1 credits ++ " Offset:" ++ (if off then "YES" else "NO")

/-- `lineContainsQ line q` holds when the one-decimal rendering of the value
`q` occurs in `line`: the sense in which a diagnostic line "contains" a
derived metric. -/
def lineContainsQ (line : String) (q : ℚ) : Bool :=
  containsSub (fmt1 q).toList line.toList

/-- C1: for every pair of integer raw readings `(c, h)`, the derivation yields
`credits = 0.5 * c`, `emissions = 0.2 * h` and
`offset_ok = (credits ≥ emissions)`; in particular `derive 800 400`
produces credits `400`, emissions `80` and offset flag `true`. -/
theorem derive_linear_scaling :
    (∀ c h : Int,
      (derive c h).1 = (1 / 2 : ℚ) * c ∧
      (derive c h).2.1 = (1 / 5 : ℚ) * h ∧
      ((derive c h).2.2 = true ↔ (derive c h).1 ≥ (derive c h).2.1)) ∧
    derive 800 400 = (400, 80, true) := by
  constructor
  · intro c h
    refine ⟨by simp [derive, mul_comm], by simp [derive, mul_comm], ?_⟩
    simp [derive]
  · simp only [derive, Prod.ext_iff]
    norm_num

/-- C2: in a cycle whose `Firebase.ready()` check returns false, no
`Firebase.setJSON` call occurs; instead the not-ready diagnostic line is
printed. -/
theorem no_write_when_not_ready (env : CycleEnv) (h : env.fbReady = false) :
    (∀ p r, Event.fbSetJSON p r ∉ loop env) ∧ Event.notReady ∈ loop env := by
  constructor
  · intro p r
    simp [loop, h]
  · simp [loop, h]

/-- Witness for `no_write_when_not_ready` at the concrete environment
`envNotReady`. -/
theorem no_write_when_not_ready_w :
    (∀ p r, Event.fbSetJSON p r ∉ loop envNotReady) ∧
    Event.notReady ∈ loop envNotReady :=
  no_write_when_not_ready envNotReady rfl

/-- C10: every record handed to `Firebase.setJSON` is internally consistent:
its `credits` field is `0.5` times its `co2` field, its `emissions` field is
`0.2` times its `humidity` field, and its `offset` field is the comparison
`credits ≥ emissions`. -/
theorem record_consistent (env : CycleEnv) :
    ∀ p r, Event.fbSetJSON p r ∈ loop env →
      r.credits = (1 / 2 : ℚ) * r.co2 ∧
      r.emissions = (1 / 5 : ℚ) * r.humidity ∧
      r.offset = decide (r.credits ≥ r.emissions) := by
  intro p r hmem
  rcases hb : env.fbReady with _ | _
  · simp [loop, hb] at hmem
  · rcases hw : env.writeOk with _ | _ <;>
    · simp [loop, hb, hw, derive] at hmem
      rcases hmem with ⟨-, hr⟩
      subst hr
      exact ⟨by simp [mul_comm], by simp [mul_comm], rfl⟩

/-- Witness for `record_consistent`: the record written by the cycle run in
`envReadyOk`. -/
theorem record_consistent_w :
    ({ co2 := 800, humidity := 400, credits := 400, emissions := 80,
       offset := true, timestamp := 1000 } : Record).credits =
        (1 / 2 : ℚ) * (800 : Int) ∧
    ({ co2 := 800, humidity := 400, credits := 400, emissions := 80,
       offset := true, timestamp := 1000 } : Record).emissions =
        (1 / 5 : ℚ) * (400 : Int) ∧
    ({ co2 := 800, humidity := 400, credits := 400, emissions := 80,
       offset := true, timestamp := 1000 } : Record).offset =
      decide ((400 : ℚ) ≥ (80 : ℚ)) :=
  record_consistent envReadyOk ("/carbon_data/" ++ toString (1000 : Nat))
    { co2 := 800, humidity := 400, credits := 400, emissions := 80,
      offset := true, timestamp := 1000 }
    (by simp [loop, envReadyOk, derive]; norm_num)

/-- C4: when `Firebase.setJSON` reports failure, the cycle still completes:
the failure diagnostic carrying `fbdo.errorReason()` is printed, exactly one
write call was made (no retry), the cycle ends with its `delay(5000)`, and
the next cycle still runs in full, beginning with a fresh sensor read. -/
theorem write_failure_isolated (envs : Nat → CycleEnv) (n : Nat)
    (hready : (envs n).fbReady = true) (hfail : (envs n).writeOk = false) :
    Event.uploadFailed (envs n).errorReason ∈ loop (envs n) ∧
    (loop (envs n)).countP (fun e => isWrite e) = 1 ∧
    (loop (envs n)).getLast? = some (Event.sleep 5000) ∧
    run envs (n + 2) = run envs (n + 1) ++ loop (envs (n + 1)) ∧
    (loop (envs (n + 1))).head? =
      some (Event.sensorRead (envs (n + 1)).co2 (envs (n + 1)).humidity) := by
  refine ⟨?_, ?_, ?_, rfl, ?_⟩
  · simp [loop, hready, hfail]
  · simp [loop, hready, hfail, List.countP_append, List.countP_cons, isWrite]
  · simp only [loop]
    exact List.getLast?_concat _
  · simp [loop]

/-- Witness for `write_failure_isolated` with every cycle run in
`envWriteFail` (ready store, failing write with reason `"timeout"`). -/
theorem write_failure_isolated_w :
    Event.uploadFailed ((fun _ : Nat => envWriteFail) 0).errorReason ∈
      loop ((fun _ : Nat => envWriteFail) 0) ∧
    (loop ((fun _ : Nat => envWriteFail) 0)).countP (fun e => isWrite e) = 1 ∧
    (loop ((fun _ : Nat => envWriteFail) 0)).getLast? =
      some (Event.sleep 5000) ∧
    run (fun _ : Nat => envWriteFail) 2 =
      run (fun _ : Nat => envWriteFail) 1 ++
        loop ((fun _ : Nat => envWriteFail) 1) ∧
    (loop ((fun _ : Nat => envWriteFail) 1)).head? =
      some (Event.sensorRead ((fun _ : Nat => envWriteFail) 1).co2
        ((fun _ : Nat => envWriteFail) 1).humidity) :=
  write_failure_isolated (fun _ => envWriteFail) 0 rfl rfl

/-- C9: the derivation is deterministic and stateless: it yields equal
outputs on equal inputs, and the locally produced events of a cycle (sensor
read, display render, serial summary) are a function of that cycle's two
readings alone, independent of connection state, write outcome, clock or any
other environment component. -/
theorem derive_pure_deterministic (c h : Int) (e1 e2 : CycleEnv)
    (h1 : e1.co2 = c) (h2 : e1.humidity = h)
    (h3 : e2.co2 = c) (h4 : e2.humidity = h) :
    derive c h = derive c h ∧
    (loop e1).filter isLocalOut = (loop e2).filter isLocalOut := by
  have key : ∀ e : CycleEnv, (loop e).filter isLocalOut =
      [Event.sensorRead e.co2 e.humidity,
       Event.displayRender e.co2 e.humidity (derive e.co2 e.humidity).1
         (derive e.co2 e.humidity).2.2,
       Event.cycleLine e.co2 e.humidity (derive e.co2 e.humidity).1
         (derive e.co2 e.humidity).2.2] := by
    intro e
    rcases hb : e.fbReady with _ | _ <;> rcases hw : e.writeOk with _ | _ <;>
      simp [loop, hb, hw, isLocalOut]
  refine ⟨rfl, ?_⟩
  rw [key e1, key e2, h1, h2, h3, h4]

/-- Witness for `derive_pure_deterministic`: two environments sharing the
readings `(800, 400)` but differing in store readiness produce identical
local output events. -/
theorem derive_pure_deterministic_w :
    derive 800 400 = derive 800 400 ∧
    (loop envReadyOk).filter isLocalOut =
      (loop envNotReady).filter isLocalOut :=
  derive_pure_deterministic 800 400 envReadyOk envNotReady rfl rfl rfl rfl

/-- C7 (amended): in every cycle, regardless of connection state and write
outcome, the display render and exactly one per-cycle serial diagnostic are
produced, both before any write attempt; they carry the raw readings, the
credits metric and the offset flag (the emissions metric appears in
neither). -/
theorem report_render_unconditional (env : CycleEnv) :
    (loop env).filter isDiag =
      [Event.cycleLine env.co2 env.humidity (derive env.co2 env.humidity).1
        (derive env.co2 env.humidity).2.2] ∧
    (loop env).filter isRender =
      [Event.displayRender env.co2 env.humidity (derive env.co2 env.humidity).1
        (derive env.co2 env.humidity).2.2] ∧
    (loop env).take 3 =
      [Event.sensorRead env.co2 env.humidity,
       Event.displayRender env.co2 env.humidity (derive env.co2 env.humidity).1
         (derive env.co2 env.humidity).2.2,
       Event.cycleLine env.co2 env.humidity (derive env.co2 env.humidity).1
         (derive env.co2 env.humidity).2.2] ∧
    ∀ p r, Event.fbSetJSON p r ∈ loop env →
      Event.fbSetJSON p r ∈ (loop env).drop 3 := by
  refine ⟨?_, ?_, ?_, ?_⟩
  · rcases hb : env.fbReady with _ | _ <;> rcases hw : env.writeOk with _ | _ <;>
      simp [loop, hb, hw, isDiag]
  · rcases hb : env.fbReady with _ | _ <;> rcases hw : env.writeOk with _ | _ <;>
      simp [loop, hb, hw, isRender]
  · simp [loop]
  · intro p r hmem
    rcases hb : env.fbReady with _ | _ <;>
      rcases hw : env.writeOk with _ | _ <;>
      simp [loop, hb, hw] at hmem ⊢ <;> exact hmem

/-- Witness for `report_render_unconditional`: in `envReadyOk` the write call
sits after the first three (read, render, report) events. -/
theorem report_render_unconditional_w :
    Event.fbSetJSON ("/carbon_data/" ++ toString (1000 : Nat))
      { co2 := 800, humidity := 400, credits := 400, emissions := 80,
        offset := true, timestamp := 1000 } ∈ (loop envReadyOk).drop 3 :=
  (report_render_unconditional envReadyOk).2.2.2 _ _
    (by simp [loop, envReadyOk, derive]; norm_num)

/-- Counterexample to C7 as stated: at readings `(0, 1000)` the emissions
metric is `200`, yet the per-cycle diagnostic line
`"CO2:0 Hum:1000 Credits:0.0 Offset:NO"` does not contain it (while it does
contain the credits metric `0`): the serial summary prints the readings, the
credits value and the offset flag only. -/
theorem diag_line_omits_emissions :
    Event.cycleLine 0 1000 (derive 0 1000).1 (derive 0 1000).2.2 ∈
      loop envZero ∧
    (derive 0 1000).2.1 = 200 ∧
    lineContainsQ
      (renderCycleLine 0 1000 (derive 0 1000).1 (derive 0 1000).2.2)
      ((derive 0 1000).2.1) = false ∧
    lineContainsQ
      (renderCycleLine 0 1000 (derive 0 1000).1 (derive 0 1000).2.2)
      ((derive 0 1000).1) = true := by
  have hd : derive 0 1000 = (0, 200, false) := by
    simp only [derive, Prod.ext_iff]
    norm_num
  rw [hd]
  have h1 : ((200 : ℚ) * 10) = (2000 : ℚ) := by norm_num
  have h2 : ((0 : ℚ) * 10) = (0 : ℚ) := by norm_num
  refine ⟨by simp [loop, envZero, hd], rfl, ?_, ?_⟩ <;>
  · simp only [lineContainsQ, fmt1, renderCycleLine, h1, h2]
    norm_num
    decide

/-- C8: the startup link wait never fails terminally and never proceeds while
the link is down: if the status call always reports the link down, the loop
is still waiting after any number of iterations (unbounded retry, one fixed
delay per iteration), and the loop can only exit to `connected m` when status
call `m` actually reported the link up. -/
theorem wifi_wait_unbounded (status : Nat → Bool) :
    ((∀ i, status i = false) → ∀ n, wifiRun status n = WifiState.waiting n) ∧
    (∀ n m, wifiRun status n = WifiState.connected m → status m = true) := by
  constructor
  · intro h n
    induction n with
    | zero => rfl
    | succ n ih => simp [wifiRun, ih, wifiStep, h]
  · intro n
    induction n with
    | zero => intro m hm; exact absurd hm (by simp [wifiRun])
    | succ n ih =>
        intro m hm
        rw [wifiRun] at hm
        rcases hw : wifiRun status n with k | k
        · rw [hw, wifiStep] at hm
          rcases hs : status k with _ | _
          · rw [if_neg (by simp [hs])] at hm
            exact absurd hm (by simp)
          · rw [if_pos hs] at hm
            cases hm
            exact hs
        · rw [hw, wifiStep] at hm
          cases hm
          exact ih _ hw

/-- Witness for `wifi_wait_unbounded`: with a never-up link the loop is still
waiting after 5 iterations; with a link that comes up at call 2 the loop
exits to `connected 2` and that call indeed reported up. -/
theorem wifi_wait_unbounded_w :
    wifiRun (fun _ => false) 5 = WifiState.waiting 5 ∧
    (fun i => decide (i = 2)) 2 = true :=
  ⟨(wifi_wait_unbounded (fun _ => false)).1 (fun _ => rfl) 5,
   (wifi_wait_unbounded (fun i => decide (i = 2))).2 3 2 (by decide)⟩

/-- When the store never reports ready, the poll loop with countdown `t`
performs exactly `t` one-second delays. -/
theorem fbWait_never (ready : Nat → Bool) (h : ∀ i, ready i = false) :
    ∀ t i, fbWait ready i t = (List.replicate t (Event.sleep 1000), i + t + 1) := by
  intro t
  induction t with
  | zero => intro i; rfl
  | succ t ih =>
      intro i
      rw [fbWait, if_neg (by simp [h]), ih (i + 1)]
      simp [List.replicate_succ]
      omega

/-- C3: if the store never reports ready, the startup readiness poll performs
exactly 20 attempts at 1000 ms spacing and stops, the timeout diagnostic is
printed exactly once, and the device proceeds into steady-state cycling
(the whole trace is that bounded prefix followed by the cycles). -/
theorem store_poll_bounded (ready : Nat → Bool) (h : ∀ i, ready i = false)
    (envs : Nat → CycleEnv) (n : Nat) :
    fbSetupTrace ready =
      List.replicate 20 (Event.sleep 1000) ++ [Event.fbTimeout] ∧
    (fbSetupTrace ready).count Event.fbTimeout = 1 ∧
    deviceTrace ready envs n =
      (List.replicate 20 (Event.sleep 1000) ++ [Event.fbTimeout]) ++
        run envs n := by
  have h1 : fbSetupTrace ready =
      List.replicate 20 (Event.sleep 1000) ++ [Event.fbTimeout] := by
    rw [fbSetupTrace, fbWait_never ready h]
    simp [h]
  refine ⟨h1, ?_, by rw [deviceTrace, h1]⟩
  rw [h1]
  simp [List.count_append, List.count_replicate]

/-- Witness for `store_poll_bounded` at the never-ready status stream, with
every cycle run in `envNotReady`. -/
theorem store_poll_bounded_w :
    fbSetupTrace (fun _ => false) =
      List.replicate 20 (Event.sleep 1000) ++ [Event.fbTimeout] ∧
    (fbSetupTrace (fun _ => false)).count Event.fbTimeout = 1 ∧
    deviceTrace (fun _ => false) (fun _ => envNotReady) 1 =
      (List.replicate 20 (Event.sleep 1000) ++ [Event.fbTimeout]) ++
        run (fun _ => envNotReady) 1 :=
  store_poll_bounded (fun _ => false) (fun _ => rfl) (fun _ => envNotReady) 1

/-- Counterexample to C5 as stated: in `envClockTick` the clock advances from
1000 to 1001 between the `millis()` call that builds the path and the
`millis()` call that fills the `timestamp` field, so the cycle issues a write
whose path component `1000` differs from its record's timestamp `1001`. -/
theorem path_timestamp_cx :
    Event.fbSetJSON ("/carbon_data/" ++ toString (1000 : Nat))
      { co2 := 800, humidity := 400, credits := 400, emissions := 80,
        offset := true, timestamp := 1001 } ∈ loop envClockTick ∧
    ("/carbon_data/" ++ toString (1000 : Nat)) ≠
      "/carbon_data/" ++ toString
        (({ co2 := 800, humidity := 400, credits := 400, emissions := 80,
            offset := true, timestamp := 1001 } : Record).timestamp) := by
  constructor
  · simp [loop, envClockTick, derive]
    norm_num
  · decide

/-- C5 (amended): the path of a write is built from the first `millis()`
sample of the cycle and the record's `timestamp` field from the second one;
whenever the clock does not advance between the two calls the path's
timestamp component equals the record's `timestamp` field. -/
theorem path_uses_first_clock_sample (env : CycleEnv) :
    ∀ p r, Event.fbSetJSON p r ∈ loop env →
      p = "/carbon_data/" ++ toString env.millis1 ∧
      r.timestamp = env.millis2 ∧
      (env.millis1 = env.millis2 →
        p = "/carbon_data/" ++ toString r.timestamp) := by
  intro p r hmem
  rcases hb : env.fbReady with _ | _
  · simp [loop, hb] at hmem
  · rcases hw : env.writeOk with _ | _ <;>
    · simp [loop, hb, hw] at hmem
      obtain ⟨hp, hr⟩ := hmem
      subst hp
      subst hr
      exact ⟨rfl, rfl, fun he => by rw [he]⟩

/-- Witness for `path_uses_first_clock_sample` at `envReadyOk`, whose two
clock samples agree. -/
theorem path_uses_first_clock_sample_w :
    ("/carbon_data/" ++ toString (1000 : Nat)) =
      "/carbon_data/" ++ toString envReadyOk.millis1 ∧
    ({ co2 := 800, humidity := 400, credits := 400, emissions := 80,
       offset := true, timestamp := 1000 } : Record).timestamp =
      envReadyOk.millis2 ∧
    (envReadyOk.millis1 = envReadyOk.millis2 →
      ("/carbon_data/" ++ toString (1000 : Nat)) =
        "/carbon_data/" ++ toString
          (({ co2 := 800, humidity := 400, credits := 400, emissions := 80,
              offset := true, timestamp := 1000 } : Record).timestamp)) :=
  path_uses_first_clock_sample envReadyOk _ _
    (by simp [loop, envReadyOk, derive]; norm_num)

/-- A single-pass deletion leaves a string without any occurrence of the
pattern unchanged. -/
theorem replaceAll_of_not_contains (pat : List Char) (s : List Char)
    (h : containsSub pat s = false) : replaceAll pat s = s := by
  induction s with
  | nil => simp [replaceAll]
  | cons c rest ih =>
      rw [containsSub, Bool.or_eq_false_iff] at h
      rw [replaceAll, if_neg, ih h.2]
      rintro ⟨hp, -⟩
      rw [h.1] at hp
      exact absurd hp (by simp)

/-- Deleting a non-empty pattern from a string that starts with it removes
that leading occurrence and continues on the remainder. -/
theorem replaceAll_append_self (c : Char) (cs r : List Char) :
    replaceAll (c :: cs) ((c :: cs) ++ r) = replaceAll (c :: cs) r := by
  rw [List.cons_append, replaceAll, if_pos]
  · congr 1
    simp [List.length_cons, List.drop_left]
  · refine ⟨?_, by simp⟩
    rw [List.isPrefixOf_iff_prefix]
    exact ⟨r, by simp⟩

/-- `"https://"` occurs in `"http://" ++ r` exactly where it occurs in `r`:
no occurrence can start inside the `"http://"` prefix. -/
theorem containsSub_https_junction (r : List Char) :
    containsSub httpsChars (httpChars ++ r) = containsSub httpsChars r := rfl

/-- `"https://"` is not a prefix of `"http://" ++ r`. -/
theorem isPrefixOf_https_http (r : List Char) :
    List.isPrefixOf httpsChars (httpChars ++ r) = false := rfl

/-- C6: for every URL-like `DATABASE_URL` (a scheme prefix `"https://"` or
`"http://"` followed by a remainder containing no further scheme
occurrence), the configured base store address is exactly the string with
its scheme prefix stripped and one trailing `'/'` stripped, otherwise
unchanged. -/
theorem host_strips_scheme (s : List Char) (h : UrlLike s) :
    hostOf s = specStrippedHost s := by
  obtain ⟨r, hs, h1, h2⟩ := h
  rcases hs with rfl | rfl
  · have e1 : replaceAll httpsChars (httpsChars ++ r) = replaceAll httpsChars r :=
      replaceAll_append_self 'h' ['t', 't', 'p', 's', ':', '/', '/'] r
    have hpre : List.isPrefixOf httpsChars (httpsChars ++ r) = true := by
      rw [List.isPrefixOf_iff_prefix]
      exact List.prefix_append _ _
    simp only [hostOf, specStrippedHost, e1,
      replaceAll_of_not_contains httpsChars r h1,
      replaceAll_of_not_contains httpChars r h2, hpre, if_true, List.drop_left]
  · have j1 : containsSub httpsChars (httpChars ++ r) = false := by
      rw [containsSub_https_junction]
      exact h1
    have e0 : replaceAll httpsChars (httpChars ++ r) = httpChars ++ r :=
      replaceAll_of_not_contains _ _ j1
    have e1 : replaceAll httpChars (httpChars ++ r) = replaceAll httpChars r :=
      replaceAll_append_self 'h' ['t', 't', 'p', ':', '/', '/'] r
    have hpre : List.isPrefixOf httpChars (httpChars ++ r) = true := by
      rw [List.isPrefixOf_iff_prefix]
      exact List.prefix_append _ _
    simp only [hostOf, specStrippedHost, e0, e1,
      replaceAll_of_not_contains httpChars r h2, isPrefixOf_https_http,
      Bool.false_eq_true, if_false, hpre, if_true, List.drop_left]

/-- Witness for `host_strips_scheme` on the concrete URL
`"https://abc.io/"`: the configured host is `"abc.io"`. -/
theorem host_strips_scheme_w :
    hostOf (httpsChars ++ ['a', 'b', 'c', '.', 'i', 'o', '/']) =
      specStrippedHost (httpsChars ++ ['a', 'b', 'c', '.', 'i', 'o', '/']) :=
  host_strips_scheme _
    ⟨['a', 'b', 'c', '.', 'i', 'o', '/'], Or.inl rfl, by decide, by decide⟩

/-- Witness for `derive_linear_scaling` at the readings `(800, 400)`. -/
theorem derive_linear_scaling_w :
    (derive 800 400).1 = (1 / 2 : ℚ) * (800 : Int) ∧
    (derive 800 400).2.1 = (1 / 5 : ℚ) * (400 : Int) ∧
    ((derive 800 400).2.2 = true ↔ (derive 800 400).1 ≥ (derive 800 400).2.1) :=
  derive_linear_scaling.1 800 400
